import Mathlib

/-!
Shallow embedding of the `SimpleNetworkingRAG` core
(`src/server/services/simpleHaystackRAG.py`) and of the phrase-trigger insight
extractor of `NetworkingRAGPipeline.extract_insights`
(`src/server/services/haystack_rag_pipeline.py`).

Python strings are modelled as Lean `String`; the Python builtins used by the
code (`str.lower`, `str.split`, slicing `s[:200]`, `len`, substring membership
`a in b`) are modelled by structural functions on the underlying character
list so that every definition evaluates inside the kernel.  Python dicts whose
keys matter to the code are modelled as association lists with `List.lookup`
(`dict.get(k, d)` becomes `(l.lookup k).getD d`); a dict literal returned by a
method becomes a Lean structure in which a key that the code omits from one of
the literals is an `Option` field whose value `none` means "key absent".
`sorted(xs, key=lambda x: x['relevance_score'], reverse=True)` is Python's
stable sort in descending score order; a stable sort for a total preorder is
unique, so it is modelled by `List.insertionSort rankRel`, which Mathlib
proves sorted, a permutation, and stable for exactly this comparator shape.
-/

namespace WarmConnector

/-- Character-list test: does `needle` start at the head of the second list?
Used to model the Python substring operator. -/
def leadMatch : List Char → List Char → Bool
  | [], _ => true
  | _ :: _, [] => false
  | a :: as, b :: bs => a == b && leadMatch as bs

/-- Does `needle` occur contiguously anywhere in the list?  (`hasSubList [] l`
is `true`, matching Python where the empty string is in every string.) -/
def hasSubList (needle : List Char) : List Char → Bool
  | [] => needle.isEmpty
  | b :: bs => leadMatch needle (b :: bs) || hasSubList needle bs

/-- Python `needle in hay` for strings (substring containment). -/
def strContains (hay needle : String) : Bool :=
  hasSubList needle.data hay.data

/-- Python `s.lower()`, modelled per character (all strings appearing in the
repository are ASCII, where `Char.toLower` agrees with Python). -/
def pyLower (s : String) : String :=
  ⟨s.data.map Char.toLower⟩

/-- Helper for `pySplit`: scan the characters, accumulating the current word
in reverse. -/
def pyWordsAux : List Char → List Char → List String
  | [], acc => if acc.isEmpty then [] else [⟨acc.reverse⟩]
  | c :: cs, acc =>
      if c.isWhitespace then
        (if acc.isEmpty then pyWordsAux cs [] else (⟨acc.reverse⟩ : String) :: pyWordsAux cs [])
      else pyWordsAux cs (c :: acc)

/-- Python `s.split()` with no separator argument: split on runs of
whitespace, discarding empty pieces. -/
def pySplit (s : String) : List String := pyWordsAux s.data []

/-- Python slice `s[:n]` (counts code points, as Python does). -/
def pyTake (s : String) (n : Nat) : String := ⟨s.data.take n⟩

/-- Python `len(s)` (number of code points). -/
def pyLen (s : String) : Nat := s.data.length

/-- A stored document: `{'content': ..., 'meta': ...}` as appended by
`add_documents`. -/
structure Doc where
  content : String
  meta : List (String × String)
deriving DecidableEq

/-- An input to `add_documents`: an arbitrary dict, of which the code reads
only `doc.get('content', '')` and `doc.get('meta', {})`; `none` models an
absent key. -/
structure InputDoc where
  content : Option String
  meta : Option (List (String × String))
deriving DecidableEq

/-- An element of the list built by `_find_relevant_documents`. -/
structure RankedDoc where
  content : String
  relevance_score : Nat
  meta : List (String × String)
deriving DecidableEq

/-- `self.knowledge_base['networking_strategies']` from `__init__`. -/
def networking_strategies : List String :=
  ["Focus on building authentic, mutually beneficial relationships rather than transactional connections.",
   "Leverage warm introductions through mutual connections for higher success rates.",
   "Participate actively in industry events and professional communities.",
   "Share valuable insights and expertise to establish thought leadership.",
   "Follow up consistently but respectfully with new connections."]

/-- `self.knowledge_base['introduction_techniques']` from `__init__`. -/
def introduction_techniques : List String :=
  ["Research common interests and mutual connections before reaching out.",
   "Craft personalized messages that clearly articulate mutual value.",
   "Keep initial contact messages concise and professional.",
   "Suggest specific ways you can provide value to the target contact.",
   "Always thank the introducer and keep them informed of outcomes."]

/-- `self.knowledge_base['industry_insights']` from `__init__`. -/
def industry_insights_knowledge : List String :=
  ["Technology sector values innovation and rapid adaptation.",
   "Finance industry prioritizes trust and regulatory compliance.",
   "Healthcare focuses on patient outcomes and regulatory standards.",
   "Consulting emphasizes problem-solving and client relationships."]

/-- `self.knowledge_base['connection_analysis']` from `__init__`. -/
def connection_analysis_knowledge : List String :=
  ["Strong connections show regular interaction patterns and mutual engagement.",
   "Weak ties can be valuable for accessing new information and opportunities.",
   "Connection strength correlates with response rates and collaboration success.",
   "Geographic proximity often enhances professional relationship development."]

/-- The `self.knowledge_base` dict set once in `__init__` and never written
again. -/
def knowledge_base : List (String × List String) :=
  [("networking_strategies", networking_strategies),
   ("introduction_techniques", introduction_techniques),
   ("industry_insights", industry_insights_knowledge),
   ("connection_analysis", connection_analysis_knowledge)]

/-- The mutable attributes of a `SimpleNetworkingRAG` instance. -/
structure RAGState where
  documents : List Doc
  knowledge_base : List (String × List String)
deriving DecidableEq

/-- The state `__init__` produces: no documents, the fixed category table. -/
def initState : RAGState :=
  { documents := [], knowledge_base := knowledge_base }

/-- The dict returned by `add_documents` (its failure literal has keys
`success, error, count`; its success literal has
`success, count, total_documents`; `none` models an absent key). -/
structure AddResult where
  success : Bool
  count : Nat
  total_documents : Option Nat
  error : Option String
deriving DecidableEq

/-- The per-document coercion inside the `add_documents` loop:
`{'content': doc.get('content', ''), 'meta': doc.get('meta', {})}`. -/
def coerceDoc (d : InputDoc) : Doc :=
  { content := d.content.getD "", meta := d.meta.getD [] }

/-- `SimpleNetworkingRAG.add_documents`.  The loop body only appends, so the
`except` branch of the Python source is unreachable and only the success
literal is modelled. -/
def add_documents (s : RAGState) (docs : List InputDoc) : RAGState × AddResult :=
  ({ documents := s.documents ++ docs.map coerceDoc, knowledge_base := s.knowledge_base },
   { success := true,
     count := docs.length,
     total_documents := some (s.documents.length + docs.length),
     error := none })

/-- `relevance_score = sum(1 for term in search_terms if term in content)` —
note that `search_terms` is a list, so a term repeated in the question is
counted once per repetition. -/
def relevanceScore (search_terms : List String) (content : String) : Nat :=
  search_terms.countP (fun term => strContains content term)

/-- The display truncation inside `_find_relevant_documents`:
`doc['content'][:200] + '...' if len(doc['content']) > 200 else doc['content']`. -/
def truncateContent (c : String) : String :=
  if pyLen c > 200 then pyTake c 200 ++ "..." else c

/-- The comparator realising `sorted(..., key=lambda x: x['relevance_score'],
reverse=True)`: `a` may precede `b` exactly when `a`'s score is at least
`b`'s.  Inserting an earlier element before equal-score later ones makes
`List.insertionSort rankRel` the stable descending sort Python computes. -/
def rankRel (a b : RankedDoc) : Prop := b.relevance_score ≤ a.relevance_score

instance : DecidableRel rankRel := fun a b => Nat.decLe _ _

instance : IsTotal RankedDoc rankRel :=
  ⟨fun a b => (Nat.le_total b.relevance_score a.relevance_score).imp id id⟩

instance : IsTrans RankedDoc rankRel :=
  ⟨fun _ _ _ h1 h2 => Nat.le_trans h2 h1⟩

/-- `SimpleNetworkingRAG._find_relevant_documents`.  The `context` parameter
is accepted but unused, exactly as in the source.  The `for`/`append` loop
over `self.documents` is the `filterMap`. -/
def find_relevant_documents (question context : String) (docs : List Doc) :
    List RankedDoc :=
  let search_terms := pySplit (pyLower question)
  let relevant := docs.filterMap (fun doc =>
    let content := pyLower doc.content
    let relevance_score := relevanceScore search_terms content
    if relevance_score > 0 then
      some { content := truncateContent doc.content,
             relevance_score := relevance_score,
             meta := doc.meta }
    else none)
  List.insertionSort rankRel relevant

/-- The fixed keyword list of `_extract_industry_context`. -/
def industries : List String :=
  ["technology", "finance", "healthcare", "consulting", "tech", "fintech"]

/-- `SimpleNetworkingRAG._extract_industry_context`: first keyword of the
fixed list occurring in `f"{question} {context}".lower()`, else `"general"`. -/
def extract_industry_context (question context : String) : String :=
  let text := pyLower (question ++ " " ++ context)
  (industries.find? (fun industry => strContains text industry)).getD "general"

/-- `SimpleNetworkingRAG._generate_answer`.  List indexing `knowledge[i]` is
modelled with `getD i ""`; every call made by `query` passes one of the four
category lists, all of length at least 4, so the default is never taken
there. -/
def generate_answer (question context query_type : String) (knowledge : List String) :
    String :=
  if query_type == "networking_strategy" then
    if strContains (pyLower question) "company" then
      "When networking within a specific company, focus on identifying key decision-makers and building relationships through shared professional interests. "
        ++ knowledge.getD 0 ""
        ++ " Research the company culture and recent developments to find relevant conversation starters."
    else
      knowledge.getD 0 "" ++ " " ++ knowledge.getD 1 ""
        ++ " Consider your specific goals and target audience when developing your approach."
  else if query_type == "introduction_advice" then
    "For effective introductions, " ++ knowledge.getD 0 "" ++ " " ++ knowledge.getD 1 ""
      ++ " Remember that successful introductions create value for all parties involved."
  else if query_type == "industry_insights" then
    let industry_context := extract_industry_context question context
    let relevant_insight :=
      (knowledge.find? (fun insight =>
        strContains (pyLower insight) (pyLower industry_context))).getD (knowledge.getD 0 "")
    "Based on industry analysis: " ++ relevant_insight
      ++ " Consider how this applies to your specific networking objectives."
  else if query_type == "connection_analysis" then
    "Connection analysis shows: " ++ knowledge.getD 0 "" ++ " " ++ knowledge.getD 2 ""
      ++ " Use these insights to prioritize your outreach efforts."
  else
    "Based on professional networking best practices: " ++ knowledge.getD 0 ""

/-- The `base_insights` dict literal of `_extract_insights`. -/
def base_insights : List (String × List String) :=
  [("networking_strategy",
    ["Prioritize quality over quantity in professional relationships",
     "Leverage existing connections for warm introductions",
     "Engage consistently with your professional network"]),
   ("introduction_advice",
    ["Research thoroughly before making contact",
     "Clearly articulate mutual value propositions",
     "Follow professional introduction etiquette"]),
   ("industry_insights",
    ["Stay current with industry trends and developments",
     "Identify key influencers and thought leaders",
     "Participate in relevant professional communities"]),
   ("connection_analysis",
    ["Monitor relationship strength indicators",
     "Track engagement patterns over time",
     "Focus on connections with highest potential value"])]

/-- `SimpleNetworkingRAG._extract_insights`: `base_insights.get(query_type,
base_insights['networking_strategy'])`; `question` and `knowledge` are
accepted but unused, as in the source. -/
def extract_insights (question query_type : String) (knowledge : List String) :
    List String :=
  (base_insights.lookup query_type).getD ((base_insights.lookup "networking_strategy").getD [])

/-- The dict returned by `query`.  The success literal has keys
`success, answer, confidence, sources, insights, retrieved_documents`; the
failure literal replaces `retrieved_documents` by `error`; `none` models an
absent key.  `confidence` is a rational modelling the Python float (both
constants used, 0.85 and 0.0, are exact in binary-independent terms). -/
structure QueryResult where
  success : Bool
  answer : String
  confidence : ℚ
  sources : List String
  insights : List String
  retrieved_documents : Option (List RankedDoc)
  error : Option String

/-- The dict built by the `except` branch of `query`
(`success, error, answer, confidence, sources, insights`). -/
def queryErrorResult (e : String) : QueryResult :=
  { success := false,
    error := some e,
    answer := "",
    confidence := 0,
    sources := [],
    insights := [] ,
    retrieved_documents := none }

/-- `SimpleNetworkingRAG.query`.  Python evaluates the default argument of
`self.knowledge_base.get(query_type, self.knowledge_base['networking_strategies'])`
eagerly, so a state whose table lacks the `networking_strategies` key raises
`KeyError`, which the `except` branch converts to the failure dict; that is
the `none` arm.  On the state `__init__` builds, the lookup always succeeds. -/
def query (s : RAGState) (question context query_type : String) : QueryResult :=
  match s.knowledge_base.lookup "networking_strategies" with
  | none => queryErrorResult "KeyError: networking_strategies"
  | some default_knowledge =>
    let relevant_knowledge := (s.knowledge_base.lookup query_type).getD default_knowledge
    let relevant_docs := find_relevant_documents question context s.documents
    let answer := generate_answer question context query_type relevant_knowledge
    let insights := extract_insights question query_type relevant_knowledge
    { success := true,
      answer := answer,
      confidence := 0.85,
      sources := ["Networking knowledge base - " ++ query_type],
      insights := insights,
      retrieved_documents := some (relevant_docs.take 3),
      error := none }

/-- `query` as a state transformer: the method reads `self.documents` and
`self.knowledge_base` and assigns neither, so the state component is returned
unchanged. -/
def queryM (s : RAGState) (question context query_type : String) :
    RAGState × QueryResult :=
  (s, query s question context query_type)

/-- The trigger-phrase table of `NetworkingRAGPipeline.extract_insights`
(`haystack_rag_pipeline.py`), in source order; the `follow up` entry fires on
either of its two phrases (`or` in the source). -/
def pipelineInsightRules : List (List String × String) :=
  [(["warm introduction"], "Leverage warm introductions"),
   (["mutual"], "Focus on mutual connections"),
   (["value"], "Lead with value proposition"),
   (["follow up", "follow-up"], "Maintain consistent follow-up"),
   (["authentic"], "Build authentic relationships"),
   (["industry"], "Consider industry context"),
   (["timing"], "Optimize outreach timing")]

/-- `NetworkingRAGPipeline.extract_insights`: sequential `if phrase in
response.lower(): insights.append(...)` over the trigger table, then
`insights[:5]`.  `query_type` is accepted but unused, as in the source. -/
def pipeline_extract_insights (response query_type : String) : List String :=
  let r := pyLower response
  (pipelineInsightRules.filterMap (fun rule =>
    if rule.1.any (fun phrase => strContains r phrase) then some rule.2 else none)).take 5

/-! ### Spec-side definitions

These follow the wording of the specification (not the code) and exist to be
compared with the source-derived definitions above. -/

/-- Spec-worded score of claim C1: the number of **distinct** tokens of the
lower-cased whitespace-split question that occur as substrings of the
lower-cased document content. -/
def distinctTokenScore (question content : String) : Nat :=
  ((pySplit (pyLower question)).dedup).countP (fun term => strContains (pyLower content) term)

/-- Multiplicity-counting score: the number of tokens of the lower-cased
whitespace-split question, counted with repetition, that occur as substrings
of the lower-cased document content.  This is what the code computes. -/
def tokenScore (question content : String) : Nat :=
  (pySplit (pyLower question)).countP (fun term => strContains (pyLower content) term)

/-- Spec-worded candidate list of claim C2: process the stored documents in
insertion order, score each with `tokenScore`, discard zero scores, truncate
the surviving contents for display. -/
def specCandidates (question : String) (docs : List Doc) : List RankedDoc :=
  docs.filterMap (fun d =>
    if 0 < tokenScore question d.content then
      some { content := truncateContent d.content,
             relevance_score := tokenScore question d.content,
             meta := d.meta }
    else none)

/-- Spec-worded industry detection of claim C5: the first keyword of the
ordered fixed set occurring (case-insensitively) in question+context, if
any. -/
def specDetectIndustry (question context : String) : Option String :=
  industries.find? (fun k => strContains (pyLower (question ++ " " ++ context)) k)

/-- Spec-worded statement selection of claim C5: the first knowledge
statement containing the detected keyword (case-insensitively), falling back
to statement #1 when no keyword is detected or none matches. -/
def specSelectStatement (knowledge : List String) (question context : String) : String :=
  match specDetectIndustry question context with
  | some k => (knowledge.find? (fun st => strContains (pyLower st) k)).getD (knowledge.getD 0 "")
  | none => knowledge.getD 0 ""

/-! ### Helper lemmas -/

set_option maxRecDepth 100000

/-- On any state whose category table is the one `__init__` builds, the
`networking_strategies` lookup succeeds and `query` takes the success
branch. -/
lemma query_eq_success (docs : List Doc) (question context query_type : String) :
    query ⟨docs, knowledge_base⟩ question context query_type =
      { success := true,
        answer := generate_answer question context query_type
          ((knowledge_base.lookup query_type).getD networking_strategies),
        confidence := 0.85,
        sources := ["Networking knowledge base - " ++ query_type],
        insights := extract_insights question query_type
          ((knowledge_base.lookup query_type).getD networking_strategies),
        retrieved_documents := some ((find_relevant_documents question context docs).take 3),
        error := none } := rfl

/-- The retrieval routine is the stable descending sort of the spec-worded
candidate list. -/
lemma find_eq_sort (question context : String) (docs : List Doc) :
    find_relevant_documents question context docs
      = List.insertionSort rankRel (specCandidates question docs) := rfl

lemma pyLen_append (a b : String) : pyLen (a ++ b) = pyLen a + pyLen b := by
  simp [pyLen, String.data_append]

lemma pyLen_pos_right (a b : String) (h : 0 < pyLen b) : 0 < pyLen (a ++ b) := by
  rw [pyLen_append]; omega

lemma pyLen_pos_left (a b : String) (h : 0 < pyLen a) : 0 < pyLen (a ++ b) := by
  rw [pyLen_append]; omega

lemma ne_empty_of_pyLen_pos {s : String} (h : 0 < pyLen s) : s ≠ "" := by
  intro he
  rw [he] at h
  exact absurd h (by decide)

/-- Every branch of the answer template carries a non-empty literal part. -/
lemma generate_answer_len_pos (question context query_type : String)
    (knowledge : List String) :
    0 < pyLen (generate_answer question context query_type knowledge) := by
  unfold generate_answer
  split_ifs <;>
    first
      | exact pyLen_pos_right _ _ (by decide)
      | exact pyLen_pos_left _ _ (by decide)

/-- Claim C9: `query` is read-only — the state transformer returns the
document list and the category table untouched. -/
theorem C9_theorem (s : RAGState) (question context query_type : String) :
    (queryM s question context query_type).1 = s
    ∧ (queryM s question context query_type).1.documents = s.documents
    ∧ (queryM s question context query_type).1.knowledge_base = s.knowledge_base :=
  ⟨rfl, rfl, rfl⟩

/-- Claim C10: every successful query, over any state and any stored
documents, has as `sources` exactly the one-element list of the fixed prefix
followed by the requested category tag; stored and retrieved documents are
never cited. -/
theorem C10_theorem (s : RAGState) (question context query_type : String)
    (h : (query s question context query_type).success = true) :
    (query s question context query_type).sources
      = ["Networking knowledge base - " ++ query_type] := by
  cases hl : s.knowledge_base.lookup "networking_strategies" with
  | none =>
    have hq : query s question context query_type
        = queryErrorResult "KeyError: networking_strategies" := by
      unfold query
      rw [hl]
    rw [hq] at h
    exact Bool.noConfusion h
  | some k =>
    have hq : (query s question context query_type).sources
        = ["Networking knowledge base - " ++ query_type] := by
      unfold query
      rw [hl]
    exact hq

/-- Witness for C10 on the initial state. -/
theorem C10_theorem_witness :
    (query initState "q" "" "networking_strategy").sources
      = ["Networking knowledge base - " ++ "networking_strategy"] :=
  C10_theorem initState "q" "" "networking_strategy" rfl

/-- Claim C7: ingestion always succeeds, appends the coerced inputs in order,
reports the number added and the new total, leaves the category table alone,
and only ever grows the store; a document without a content field is coerced
to empty content. -/
theorem C7_theorem (s : RAGState) (docs : List InputDoc) :
    (add_documents s docs).2.success = true
    ∧ (add_documents s docs).2.count = docs.length
    ∧ (add_documents s docs).2.total_documents = some (s.documents.length + docs.length)
    ∧ (add_documents s docs).1.documents = s.documents ++ docs.map coerceDoc
    ∧ (add_documents s docs).1.knowledge_base = s.knowledge_base
    ∧ s.documents <+: (add_documents s docs).1.documents
    ∧ (∀ d : InputDoc, d.content = none → (coerceDoc d).content = "") := by
  refine ⟨rfl, rfl, rfl, rfl, rfl, ⟨docs.map coerceDoc, rfl⟩, ?_⟩
  intro d h
  simp [coerceDoc, h]

/-- Witness for C7 at a concrete state and input list. -/
theorem C7_theorem_witness :
    (add_documents initState [{ content := none, meta := none }]).2.count = 1
    ∧ (coerceDoc { content := none, meta := none }).content = "" :=
  ⟨( C7_theorem initState [{ content := none, meta := none }]).2.1,
   ( C7_theorem initState [{ content := none, meta := none }]).2.2.2.2.2.2
     { content := none, meta := none } rfl⟩

/-- Claim C3 (amended): `query` is total and every call yields either the
success-shaped result or the failure conversion `queryErrorResult`, which has
`success = false`, `confidence = 0`, an empty `answer`, the message in
`error`, and no `retrieved_documents` field. -/
theorem C3_theorem (s : RAGState) (question context query_type : String) :
    ((query s question context query_type).success = true
      ∧ (query s question context query_type).error = none
      ∧ ∃ l, (query s question context query_type).retrieved_documents = some l)
    ∨ (∃ e, query s question context query_type = queryErrorResult e
      ∧ (queryErrorResult e).success = false
      ∧ (queryErrorResult e).confidence = 0
      ∧ (queryErrorResult e).answer = ""
      ∧ (queryErrorResult e).error = some e
      ∧ (queryErrorResult e).retrieved_documents = none) := by
  unfold query
  cases hl : s.knowledge_base.lookup "networking_strategies" with
  | none => exact Or.inr ⟨"KeyError: networking_strategies", rfl, rfl, rfl, rfl, rfl, rfl⟩
  | some k => exact Or.inl ⟨rfl, rfl, _, rfl⟩

/-- Counterexample to C3 as stated: the failure conversion does not contain
every `QueryResult` field — `retrieved_documents` is absent — and its answer
is the empty string rather than a human-readable placeholder. -/
theorem C3_counterexample :
    (queryErrorResult "boom").retrieved_documents = none
    ∧ (queryErrorResult "boom").answer = "" :=
  ⟨rfl, rfl⟩

/-- Claim C6: on the initial category table every query succeeds with a
non-empty answer, and both an empty store and an empty question token set
yield an empty retrieved-document list. -/
theorem C6_theorem (question context query_type : String) (docs : List Doc) :
    (query ⟨docs, knowledge_base⟩ question context query_type).success = true
    ∧ (query ⟨docs, knowledge_base⟩ question context query_type).answer ≠ ""
    ∧ (docs = [] →
        (query ⟨docs, knowledge_base⟩ question context query_type).retrieved_documents = some [])
    ∧ (pySplit (pyLower question) = [] →
        (query ⟨docs, knowledge_base⟩ question context query_type).retrieved_documents = some []) := by
  refine ⟨rfl, ?_, ?_, ?_⟩
  · rw [query_eq_success]
    exact ne_empty_of_pyLen_pos (generate_answer_len_pos question context query_type _)
  · intro hd
    subst hd
    rfl
  · intro ht
    rw [query_eq_success]
    have hc : specCandidates question docs = [] := by
      unfold specCandidates
      rw [List.filterMap_eq_nil_iff]
      intro d _
      have hz : tokenScore question d.content = 0 := by
        unfold tokenScore
        rw [ht]
        exact List.countP_nil _
      rw [if_neg (by omega)]
    rw [find_eq_sort, hc]
    rfl

/-- Witness for C6 on the empty store and an empty question. -/
theorem C6_theorem_witness :
    (query ⟨[], knowledge_base⟩ "" "" "networking_strategy").success = true
    ∧ (query ⟨[], knowledge_base⟩ "" "" "networking_strategy").retrieved_documents = some [] :=
  ⟨( C6_theorem "" "" "networking_strategy" []).1,
   ( C6_theorem "" "" "networking_strategy" []).2.2.1 rfl⟩

/-- Claim C1 (amended): every retrieved entry comes from a stored document
and carries score `tokenScore`, which counts question tokens with their
multiplicity in the question (a token occurring several times in one
document still counts once per question-token occurrence); conversely every
positively scoring document appears. -/
theorem C1_theorem (question context : String) (docs : List Doc) :
    (∀ r ∈ find_relevant_documents question context docs,
       ∃ d ∈ docs, r = { content := truncateContent d.content,
                         relevance_score := tokenScore question d.content,
                         meta := d.meta })
    ∧ (∀ d ∈ docs, 0 < tokenScore question d.content →
        ({ content := truncateContent d.content,
           relevance_score := tokenScore question d.content,
           meta := d.meta } : RankedDoc) ∈ find_relevant_documents question context docs) := by
  constructor
  · intro r hr
    rw [find_eq_sort, List.mem_insertionSort] at hr
    unfold specCandidates at hr
    rw [List.mem_filterMap] at hr
    obtain ⟨d, hd, hf⟩ := hr
    refine ⟨d, hd, ?_⟩
    by_cases hp : 0 < tokenScore question d.content
    · rw [if_pos hp] at hf
      exact (Option.some.inj hf).symm
    · rw [if_neg hp] at hf
      exact absurd hf (by simp)
  · intro d hd hp
    rw [find_eq_sort, List.mem_insertionSort]
    unfold specCandidates
    rw [List.mem_filterMap]
    exact ⟨d, hd, by rw [if_pos hp]⟩

/-- Witness for C1 at a single matching document. -/
theorem C1_theorem_witness :
    ({ content := truncateContent "a tech doc",
       relevance_score := tokenScore "tech" "a tech doc",
       meta := [] } : RankedDoc)
      ∈ find_relevant_documents "tech" "" [{ content := "a tech doc", meta := [] }] :=
  ( C1_theorem "tech" "" [{ content := "a tech doc", meta := [] }]).2
    { content := "a tech doc", meta := [] } (by decide) (by decide)

/-- Counterexample to C1 as stated: for the question `"tech tech"` and a
stored document `"tech"` the code scores 2 (one per question-token
occurrence) while the distinct-token count of the claim is 1. -/
theorem C1_counterexample :
    (find_relevant_documents "tech tech" "" [{ content := "tech", meta := [] }]).map
        RankedDoc.relevance_score = [2]
    ∧ distinctTokenScore "tech tech" "tech" = 1 := by
  decide

/-- Lookup misses on the category table for an unrecognized tag. -/
lemma kb_lookup_eq_none (t : String)
    (h1 : t ≠ "networking_strategies") (h2 : t ≠ "introduction_techniques")
    (h3 : t ≠ "industry_insights") (h4 : t ≠ "connection_analysis") :
    knowledge_base.lookup t = none := by
  unfold knowledge_base
  rw [List.lookup_cons, beq_eq_false_iff_ne.mpr h1, List.lookup_cons,
    beq_eq_false_iff_ne.mpr h2, List.lookup_cons, beq_eq_false_iff_ne.mpr h3,
    List.lookup_cons, beq_eq_false_iff_ne.mpr h4]
  rfl

/-- Lookup misses on the insight table for an unrecognized tag. -/
lemma bi_lookup_eq_none (t : String)
    (h1 : t ≠ "networking_strategy") (h2 : t ≠ "introduction_advice")
    (h3 : t ≠ "industry_insights") (h4 : t ≠ "connection_analysis") :
    base_insights.lookup t = none := by
  unfold base_insights
  rw [List.lookup_cons, beq_eq_false_iff_ne.mpr h1, List.lookup_cons,
    beq_eq_false_iff_ne.mpr h2, List.lookup_cons, beq_eq_false_iff_ne.mpr h3,
    List.lookup_cons, beq_eq_false_iff_ne.mpr h4]
  rfl

/-- An unrecognized tag takes the final template of `_generate_answer`, not
the `networking_strategy` branch. -/
lemma generate_answer_unknown (question context t : String) (knowledge : List String)
    (h1 : t ≠ "networking_strategy") (h2 : t ≠ "introduction_advice")
    (h3 : t ≠ "industry_insights") (h4 : t ≠ "connection_analysis") :
    generate_answer question context t knowledge
      = "Based on professional networking best practices: " ++ knowledge.getD 0 "" := by
  unfold generate_answer
  rw [if_neg (by simp [h1]), if_neg (by simp [h2]), if_neg (by simp [h3]),
    if_neg (by simp [h4])]

/-- An unrecognized tag falls back to the `networking_strategy` insight
list. -/
lemma extract_insights_unknown (question t : String) (knowledge : List String)
    (h1 : t ≠ "networking_strategy") (h2 : t ≠ "introduction_advice")
    (h3 : t ≠ "industry_insights") (h4 : t ≠ "connection_analysis") :
    extract_insights question t knowledge
      = ["Prioritize quality over quantity in professional relationships",
         "Leverage existing connections for warm introductions",
         "Engage consistently with your professional network"] := by
  unfold extract_insights
  rw [bi_lookup_eq_none t h1 h2 h3 h4]
  rfl

/-- Claim C4 (amended): for every category tag outside the four recognized
categories, the insights are the `networking_strategy` default list, and the
answer is produced by the generic final template of `_generate_answer`
(statement #1 only), never by the `networking_strategy` template; the
statements it draws from are `knowledge_base.get(tag, default)` — the
default category's statements for tags that are not knowledge-store keys
(e.g. `"bogus"`), but the store entry itself for the two store keys that are
not recognized categories (`"networking_strategies"`,
`"introduction_techniques"`). -/
theorem C4_theorem (question context query_type : String) (docs : List Doc)
    (h : query_type ∉ ["networking_strategy", "introduction_advice", "industry_insights",
         "connection_analysis"]) :
    ((query ⟨docs, knowledge_base⟩ question context query_type).answer
       = "Based on professional networking best practices: "
         ++ ((knowledge_base.lookup query_type).getD networking_strategies).getD 0 "")
    ∧ ((query ⟨docs, knowledge_base⟩ question context query_type).insights
       = ["Prioritize quality over quantity in professional relationships",
          "Leverage existing connections for warm introductions",
          "Engage consistently with your professional network"])
    ∧ (query_type ≠ "networking_strategies" → query_type ≠ "introduction_techniques" →
        (query ⟨docs, knowledge_base⟩ question context query_type).answer
          = "Based on professional networking best practices: "
            ++ networking_strategies.getD 0 "")
    ∧ ((query ⟨docs, knowledge_base⟩ question context "introduction_techniques").answer
       = "Based on professional networking best practices: "
         ++ introduction_techniques.getD 0 "") := by
  simp only [List.mem_cons, List.not_mem_nil, or_false, not_or] at h
  obtain ⟨h1, h2, h3, h4⟩ := h
  have hq : (query ⟨docs, knowledge_base⟩ question context query_type).answer
      = generate_answer question context query_type
          ((knowledge_base.lookup query_type).getD networking_strategies) := by
    rw [query_eq_success]
  have hi : (query ⟨docs, knowledge_base⟩ question context query_type).insights
      = extract_insights question query_type
          ((knowledge_base.lookup query_type).getD networking_strategies) := by
    rw [query_eq_success]
  refine ⟨?_, ?_, ?_, ?_⟩
  · rw [hq]
    exact generate_answer_unknown question context query_type _ h1 h2 h3 h4
  · rw [hi]
    exact extract_insights_unknown question query_type _ h1 h2 h3 h4
  · intro h5 h6
    rw [hq, kb_lookup_eq_none query_type h5 h6 h3 h4, Option.getD_none]
    exact generate_answer_unknown question context query_type networking_strategies h1 h2 h3 h4
  · have hq2 : (query ⟨docs, knowledge_base⟩ question context "introduction_techniques").answer
        = generate_answer question context "introduction_techniques"
            ((knowledge_base.lookup "introduction_techniques").getD networking_strategies) := by
      rw [query_eq_success]
    have hl : (knowledge_base.lookup "introduction_techniques").getD networking_strategies
        = introduction_techniques := rfl
    rw [hq2, hl]
    exact generate_answer_unknown question context "introduction_techniques"
      introduction_techniques (by decide) (by decide) (by decide) (by decide)

/-- Witness for C4 at the unrecognized tag `"bogus"`, discharging both the
membership hypothesis and the store-key inequalities. -/
theorem C4_theorem_witness :
    (query ⟨[], knowledge_base⟩ "How do I network?" "" "bogus").answer
       = "Based on professional networking best practices: "
         ++ ((knowledge_base.lookup "bogus").getD networking_strategies).getD 0 ""
    ∧ (query ⟨[], knowledge_base⟩ "How do I network?" "" "bogus").answer
       = "Based on professional networking best practices: "
         ++ networking_strategies.getD 0 ""
    ∧ (query ⟨[], knowledge_base⟩ "How do I network?" "" "bogus").insights
       = ["Prioritize quality over quantity in professional relationships",
          "Leverage existing connections for warm introductions",
          "Engage consistently with your professional network"] :=
  ⟨( C4_theorem "How do I network?" "" "bogus" [] (by decide)).1,
   ( C4_theorem "How do I network?" "" "bogus" [] (by decide)).2.2.1
     (by decide) (by decide),
   ( C4_theorem "How do I network?" "" "bogus" [] (by decide)).2.1⟩

/-- Counterexample to C4 as stated: on the tag `"bogus"` the answer is not
the output of the `networking_strategy` template over the default knowledge
(the template the claim names), but the generic final template. -/
theorem C4_counterexample :
    (query initState "How do I network?" "" "bogus").answer
       = "Based on professional networking best practices: Focus on building authentic, mutually beneficial relationships rather than transactional connections."
    ∧ (query initState "How do I network?" "" "bogus").answer
       ≠ generate_answer "How do I network?" "" "networking_strategy" networking_strategies := by
  constructor
  · decide
  · decide

/-- A conditional one-per-rule `filterMap` selects a sublist of the rule
outputs, in rule order. -/
lemma filterMap_ite_sublist (p : List String → Bool) :
    ∀ l : List (List String × String),
      (l.filterMap (fun rule => if p rule.1 then some rule.2 else none)).Sublist
        (l.map Prod.snd) := by
  intro l
  induction l with
  | nil => exact List.Sublist.refl []
  | cons r rs ih =>
    rw [List.filterMap_cons, List.map_cons]
    by_cases hp : p r.1
    · rw [if_pos hp]
      exact ih.cons₂ r.2
    · rw [if_neg hp]
      exact ih.cons r.2

/-- A successful association-list lookup returns one of the stored values. -/
lemma lookup_some_mem {α : Type} (t : String) (v : α) :
    ∀ l : List (String × α), l.lookup t = some v → v ∈ l.map Prod.snd := by
  intro l
  induction l with
  | nil => intro h; exact absurd h (by simp)
  | cons p ps ih =>
    intro h
    rw [List.map_cons]
    rcases p with ⟨k, b⟩
    rw [List.lookup_cons] at h
    cases hk : t == k with
    | true => rw [hk] at h; exact (Option.some.inj h) ▸ List.mem_cons_self b _
    | false => rw [hk] at h; exact List.mem_cons_of_mem b (ih h)

/-- Claim C8: both insight-extraction strategies return at most 5 insights,
without duplicates, in a deterministic order — a fixed per-category list for
the category-default strategy, trigger-table order (a sublist of the fixed
output column) for the phrase-trigger strategy. -/
theorem C8_theorem :
    (∀ question query_type : String, ∀ knowledge : List String,
       (extract_insights question query_type knowledge).length ≤ 5
       ∧ (extract_insights question query_type knowledge).Nodup
       ∧ extract_insights question query_type knowledge ∈ base_insights.map Prod.snd)
    ∧ (∀ response query_type : String,
       (pipeline_extract_insights response query_type).length ≤ 5
       ∧ (pipeline_extract_insights response query_type).Nodup
       ∧ (pipeline_extract_insights response query_type).Sublist
           (pipelineInsightRules.map Prod.snd)) := by
  constructor
  · intro question query_type knowledge
    have hmem : extract_insights question query_type knowledge ∈ base_insights.map Prod.snd := by
      unfold extract_insights
      cases hl : base_insights.lookup query_type with
      | none => decide
      | some v =>
        have := lookup_some_mem query_type v base_insights hl
        simpa using this
    have hall : ∀ v ∈ base_insights.map Prod.snd, v.length ≤ 5 ∧ v.Nodup := by decide
    exact ⟨(hall _ hmem).1, (hall _ hmem).2, hmem⟩
  · intro response query_type
    have hsub : (pipeline_extract_insights response query_type).Sublist
        (pipelineInsightRules.map Prod.snd) := by
      unfold pipeline_extract_insights
      exact (List.take_sublist 5 _).trans
        (filterMap_ite_sublist
          (fun phrases => phrases.any (fun phrase => strContains (pyLower response) phrase))
          pipelineInsightRules)
    refine ⟨?_, List.Nodup.sublist hsub (by decide), hsub⟩
    unfold pipeline_extract_insights
    rw [List.length_take]
    exact min_le_left _ _

/-- Stability of the descending sort: for each score value, the equal-score
entries of the sorted output are exactly the equal-score entries of the
input, in their original order. -/
lemma filter_score_sort (l : List RankedDoc) (n : Nat) :
    (List.insertionSort rankRel l).filter (fun r => r.relevance_score == n)
      = l.filter (fun r => r.relevance_score == n) := by
  have hpw : (l.filter (fun r => r.relevance_score == n)).Pairwise rankRel := by
    apply List.pairwise_of_forall_mem_list
    intro a ha b hb
    have ha' : a.relevance_score = n := by simpa using (List.mem_filter.mp ha).2
    have hb' : b.relevance_score = n := by simpa using (List.mem_filter.mp hb).2
    exact le_of_eq (hb'.trans ha'.symm)
  have hsub : (l.filter (fun r => r.relevance_score == n)).Sublist
      (List.insertionSort rankRel l) :=
    List.sublist_insertionSort hpw (List.filter_sublist l)
  have hidem : (l.filter (fun r => r.relevance_score == n)).filter
      (fun r => r.relevance_score == n) = l.filter (fun r => r.relevance_score == n) :=
    List.filter_eq_self.mpr (fun a ha => (List.mem_filter.mp ha).2)
  have hsub2 : (l.filter (fun r => r.relevance_score == n)).Sublist
      ((List.insertionSort rankRel l).filter (fun r => r.relevance_score == n)) := by
    have := List.Sublist.filter (fun r => r.relevance_score == n) hsub
    rwa [hidem] at this
  have hlen : ((List.insertionSort rankRel l).filter (fun r => r.relevance_score == n)).length
      = (l.filter (fun r => r.relevance_score == n)).length :=
    ((List.perm_insertionSort rankRel l).filter _).length_eq
  exact (hsub2.eq_of_length hlen.symm).symm

/-- Claim C2: the retrieved list is the first 3 entries of the ranked list,
hence of length at most 3; the ranked list keeps only positive scores, is
sorted descending, is a permutation of the spec-worded candidate list
(scored, zero-score-discarded, truncated stored documents in insertion
order), equal scores keep insertion order, and truncation appends the
ellipsis exactly when the content exceeds 200 characters. -/
theorem C2_theorem (question context query_type : String) (docs : List Doc) :
    ((query ⟨docs, knowledge_base⟩ question context query_type).retrieved_documents
        = some ((find_relevant_documents question context docs).take 3))
    ∧ ((find_relevant_documents question context docs).take 3).length ≤ 3
    ∧ (∀ r ∈ find_relevant_documents question context docs, 0 < r.relevance_score)
    ∧ List.Sorted rankRel (find_relevant_documents question context docs)
    ∧ (find_relevant_documents question context docs).Perm (specCandidates question docs)
    ∧ (∀ n : Nat, (find_relevant_documents question context docs).filter
          (fun r => r.relevance_score == n)
        = (specCandidates question docs).filter (fun r => r.relevance_score == n))
    ∧ (∀ c : String, (pyLen c ≤ 200 → truncateContent c = c)
        ∧ (200 < pyLen c → truncateContent c = pyTake c 200 ++ "...")) := by
  refine ⟨rfl, ?_, ?_, ?_, ?_, ?_, ?_⟩
  · rw [List.length_take]
    exact min_le_left _ _
  · intro r hr
    rw [find_eq_sort, List.mem_insertionSort] at hr
    unfold specCandidates at hr
    rw [List.mem_filterMap] at hr
    obtain ⟨d, _, hf⟩ := hr
    by_cases hp : 0 < tokenScore question d.content
    · rw [if_pos hp] at hf
      rw [← Option.some.inj hf]
      exact hp
    · rw [if_neg hp] at hf
      exact absurd hf (by simp)
  · rw [find_eq_sort]
    exact List.sorted_insertionSort rankRel _
  · rw [find_eq_sort]
    exact List.perm_insertionSort rankRel _
  · intro n
    rw [find_eq_sort]
    exact filter_score_sort _ n
  · intro c
    constructor
    · intro h
      unfold truncateContent
      rw [if_neg (by omega)]
    · intro h
      unfold truncateContent
      rw [if_pos (by omega)]

/-- Witness for C2 at a one-document store. -/
theorem C2_theorem_witness :
    (query ⟨[{ content := "alpha beta", meta := [] }], knowledge_base⟩
        "alpha" "" "networking_strategy").retrieved_documents
      = some ((find_relevant_documents "alpha" ""
          [{ content := "alpha beta", meta := [] }]).take 3)
    ∧ 0 < ({ content := "alpha beta", relevance_score := 1, meta := [] } : RankedDoc).relevance_score
    ∧ truncateContent "abc" = "abc" :=
  ⟨( C2_theorem "alpha" "" "networking_strategy" [{ content := "alpha beta", meta := [] }]).1,
   ( C2_theorem "alpha" "" "networking_strategy" [{ content := "alpha beta", meta := [] }]).2.2.1
     { content := "alpha beta", relevance_score := 1, meta := [] } (by decide),
   (( C2_theorem "alpha" "" "networking_strategy" []).2.2.2.2.2.2 "abc").1 (by decide)⟩

/-- The `industry_insights` template over its fixed knowledge equals the
spec-worded detect-then-select rule.  (The specialization to the fixed
knowledge matters: on the no-detection path the code searches the statements
for the literal `"general"`, which none of the fixed statements contains.) -/
lemma generate_answer_industry (question context : String) :
    generate_answer question context "industry_insights" industry_insights_knowledge
      = "Based on industry analysis: "
        ++ specSelectStatement industry_insights_knowledge question context
        ++ " Consider how this applies to your specific networking objectives." := by
  unfold generate_answer
  rw [if_neg (by decide), if_neg (by decide), if_pos (by decide)]
  unfold specSelectStatement specDetectIndustry
  dsimp only
  cases hf : industries.find?
      (fun k => strContains (pyLower (question ++ " " ++ context)) k) with
  | none =>
    have he : extract_industry_context question context = "general" := by
      unfold extract_industry_context
      dsimp only
      rw [hf]
      rfl
    rw [he]
    have hg : industry_insights_knowledge.find?
        (fun insight => strContains (pyLower insight) (pyLower "general")) = none := by
      decide
    rw [hg]
    rfl
  | some k =>
    have hk : k ∈ industries := List.mem_of_find?_eq_some hf
    have hlow : pyLower k = k := by
      fin_cases hk <;> decide
    have he : extract_industry_context question context = k := by
      unfold extract_industry_context
      dsimp only
      rw [hf]
      rfl
    rw [he, hlow]

/-- Claim C5 (amended): for category `industry_insights` the answer embeds
the statement selected by the detect-then-select rule (first keyword of the
ordered fixed set occurring in question+context; first statement containing
it; fallback statement #1); for the question `"What about fintech?"` the
detected keyword is `"tech"` (which precedes `"fintech"` in the list and is
a substring of it), so the Technology statement is embedded. -/
theorem C5_theorem (question context : String) (docs : List Doc) :
    ((query ⟨docs, knowledge_base⟩ question context "industry_insights").answer
      = "Based on industry analysis: "
        ++ specSelectStatement industry_insights_knowledge question context
        ++ " Consider how this applies to your specific networking objectives.")
    ∧ extract_industry_context "What about fintech?" "" = "tech"
    ∧ (query initState "What about fintech?" "" "industry_insights").answer
        = "Based on industry analysis: Technology sector values innovation and rapid adaptation. Consider how this applies to your specific networking objectives." := by
  refine ⟨?_, by decide, by decide⟩
  have hq : (query ⟨docs, knowledge_base⟩ question context "industry_insights").answer
      = generate_answer question context "industry_insights"
          ((knowledge_base.lookup "industry_insights").getD networking_strategies) := by
    rw [query_eq_success]
  rw [hq]
  exact generate_answer_industry question context

/-- Counterexample to C5 as stated: for `"What about fintech?"` the detected
keyword is `"tech"`, and the embedded statement is the Technology one, which
contains neither `"finance"` nor `"fintech"`. -/
theorem C5_counterexample :
    extract_industry_context "What about fintech?" "" = "tech"
    ∧ strContains
        (pyLower (query initState "What about fintech?" "" "industry_insights").answer)
        "finance" = false
    ∧ strContains
        (pyLower (query initState "What about fintech?" "" "industry_insights").answer)
        "fintech" = false := by
  refine ⟨by decide, by decide, by decide⟩

end WarmConnector
